import Mathlib

/-!
A verification development for the compilebench harness (main.go and its
earlier generation). Text is modelled as lists of characters; the relevant
Go library routines (strings.Fields, strings.Split on a newline,
strconv.ParseInt with base 0 and bit size 64, strings.HasPrefix,
strings.Contains, decimal rendering of %d) are embedded as executable Lean
definitions, and the measurement-and-parsing pipeline of the tool
(profile-counter extraction, size-output parsing, record formatting, the
benchmark loop and its error handling) is modelled on top of them.
-/

namespace Compilebench

/-- Text, modelled as a list of characters. -/
abbrev Str := List Char

/-- The rune predicate of unicode.IsSpace, used by strings.Fields. -/
def isGoSpace (c : Char) : Bool :=
  let n := c.toNat
  n = 0x9 || n = 0xA || n = 0xB || n = 0xC || n = 0xD || n = 0x20 ||
  n = 0x85 || n = 0xA0 || n = 0x1680 || (0x2000 ≤ n && n ≤ 0x200A) ||
  n = 0x2028 || n = 0x2029 || n = 0x202F || n = 0x205F || n = 0x3000

/-- Worker for fieldsOf: accumulates the current word in reverse. -/
def fieldsAux : List Char → List Char → List Str
  | [], cur => if cur.isEmpty then [] else [cur.reverse]
  | c :: cs, cur =>
    if isGoSpace c then
      if cur.isEmpty then fieldsAux cs [] else cur.reverse :: fieldsAux cs []
    else fieldsAux cs (c :: cur)

/-- strings.Fields: split around runs of white space, dropping empty words. -/
def fieldsOf (s : Str) : List Str := fieldsAux s []

/-- Worker for splitNL: accumulates the current piece in reverse. -/
def splitNLAux : List Char → List Char → List Str
  | [], cur => [cur.reverse]
  | c :: cs, cur =>
    if c = '\n' then cur.reverse :: splitNLAux cs []
    else splitNLAux cs (c :: cur)

/-- strings.Split with separator a newline: one piece per segment,
empty pieces kept, always at least one piece. -/
def splitNL (s : Str) : List Str := splitNLAux s []

/-- strings.HasPrefix: the first argument is a leading segment of the second. -/
def startsWithL : Str → Str → Bool
  | [], _ => true
  | _ :: _, [] => false
  | a :: as, b :: bs => a = b && startsWithL as bs

/-- strings.Contains hay needle: needle occurs as a contiguous segment of hay. -/
def containsSub (hay needle : Str) : Bool :=
  startsWithL needle hay ||
    match hay with
    | [] => false
    | _ :: rest => containsSub rest needle

/-- The digit value of a character, as in strconv: ASCII decimal digits,
then letters case-folded to values 10 and up. -/
def digitVal (c : Char) : Option Nat :=
  if '0' ≤ c ∧ c ≤ '9' then some (c.toNat - '0'.toNat)
  else
    let l := c.toNat ||| 0x20
    if 'a'.toNat ≤ l ∧ l ≤ 'z'.toNat then some (l - 'a'.toNat + 10)
    else none

/-- The largest unsigned 64-bit value, the overflow bound of ParseUint. -/
def maxU64 : Nat := 2 ^ 64 - 1

/-- The digit-accumulation loop of strconv.ParseUint with base 0 already
resolved: underscores are tolerated (recorded in the flag), a non-digit or a
digit at or above the base is a syntax error, and passing the unsigned
64-bit cutoff is a range error; both errors collapse to none. -/
def digitsLoop (base : Nat) : List Char → Nat → Bool → Option (Nat × Bool)
  | [], n, us => some (n, us)
  | c :: cs, n, us =>
    if c = '_' then digitsLoop base cs n true
    else
      match digitVal c with
      | none => none
      | some d =>
        if base ≤ d then none
        else if maxU64 / base + 1 ≤ n then none
        else if maxU64 < n * base + d then none
        else digitsLoop base cs (n * base + d) us

/-- The state letter of strconv.underscoreOK. -/
inductive Saw where
  | start
  | digit
  | under
  | other
deriving DecidableEq

/-- The scanning loop of strconv.underscoreOK: an underscore must follow and
be followed by a digit (or the base mark). -/
def uscoreLoop (hex : Bool) : List Char → Saw → Bool
  | [], saw => decide (saw ≠ Saw.under)
  | c :: cs, saw =>
    if ('0' ≤ c ∧ c ≤ '9') ∨
        (hex = true ∧ 'a'.toNat ≤ (c.toNat ||| 0x20) ∧ (c.toNat ||| 0x20) ≤ 'f'.toNat) then
      uscoreLoop hex cs Saw.digit
    else if c = '_' then
      if saw = Saw.digit then uscoreLoop hex cs Saw.under else false
    else if saw = Saw.under then false
    else uscoreLoop hex cs Saw.other

/-- strconv.underscoreOK: underscores appear only between digits of the
number proper, after an optional sign and base mark. -/
def underscoreOK (s : List Char) : Bool :=
  let s1 := match s with
            | c :: rest => if c = '-' ∨ c = '+' then rest else s
            | [] => s
  match s1 with
  | c0 :: c1 :: rest =>
    let l := c1.toNat ||| 0x20
    if c0 = '0' ∧ (l = 'b'.toNat ∨ l = 'o'.toNat ∨ l = 'x'.toNat) then
      uscoreLoop (decide (l = 'x'.toNat)) rest Saw.digit
    else uscoreLoop false s1 Saw.start
  | _ => uscoreLoop false s1 Saw.start

/-- strconv.ParseUint with base 0 and bit size 64: detect a binary, octal or
hexadecimal base mark (a bare leading zero means octal), run the digit loop,
and reject misplaced underscores; every error collapses to none. -/
def goParseUint64 (s : List Char) : Option Nat :=
  match s with
  | [] => none
  | c0 :: rest0 =>
    let bd : Nat × List Char :=
      if c0 = '0' then
        match rest0 with
        | c1 :: rest1 =>
          let l := c1.toNat ||| 0x20
          if l = 'b'.toNat ∧ rest1 ≠ [] then (2, rest1)
          else if l = 'o'.toNat ∧ rest1 ≠ [] then (8, rest1)
          else if l = 'x'.toNat ∧ rest1 ≠ [] then (16, rest1)
          else (8, rest0)
        | [] => (8, [])
      else (10, s)
    match digitsLoop bd.1 bd.2 0 false with
    | none => none
    | some (n, us) =>
      if us = true ∧ underscoreOK s = false then none else some n

/-- strconv.ParseInt with base 0 and bit size 64: strip an optional sign,
parse the unsigned body, and enforce the signed 64-bit range; every error
collapses to none. -/
def goParseInt64 (s : List Char) : Option Int :=
  match s with
  | [] => none
  | c :: rest =>
    let neg : Bool := decide (c = '-')
    let body := if c = '+' ∨ c = '-' then rest else s
    match goParseUint64 body with
    | none => none
    | some un =>
      if neg = false ∧ 2 ^ 63 ≤ un then none
      else if neg = true ∧ 2 ^ 63 < un then none
      else some (if neg = true then -(un : Int) else (un : Int))

/-- Worker for natToDec, with fuel. -/
def natDigitsAux : Nat → Nat → List Char → List Char
  | 0, _, acc => acc
  | fuel + 1, n, acc =>
    let d := Char.ofNat (n % 10 + '0'.toNat)
    if n < 10 then d :: acc else natDigitsAux fuel (n / 10) (d :: acc)

/-- Decimal rendering of a natural number. -/
def natToDec (n : Nat) : Str := natDigitsAux (n + 1) n []

/-- Decimal rendering of an integer, as the %d verb prints an int64. -/
def intToDec (i : Int) : Str :=
  if i < 0 then '-' :: natToDec (-i).toNat else natToDec i.toNat

/-- The counter name of the total-allocated-bytes line of a profile dump. -/
def totalAllocName : Str := "TotalAlloc".data

/-- The counter name of the total-allocation-count line of a profile dump. -/
def mallocsName : Str := "Mallocs".data

/-- One step of the profile scan of runBuild: tokenize the line, require at
least four fields with the comment marker first and the equality sign third,
parse the fourth field as a base-0 signed 64-bit integer, and store it under
a recognized counter name; any other line leaves the accumulator (bytes,
allocs) unchanged. -/
def scanLine (acc : Int × Int) (line : Str) : Int × Int :=
  match fieldsOf line with
  | f0 :: f1 :: f2 :: f3 :: _ =>
    if f0 = ['#'] ∧ f2 = ['='] then
      match goParseInt64 f3 with
      | some val =>
        if f1 = totalAllocName then (val, acc.2)
        else if f1 = mallocsName then (acc.1, val)
        else acc
      | none => acc
    else acc
  | _ => acc

/-- The profile scan of runBuild over a whole dump: split on newlines and
fold scanLine from (0, 0); the first component is total allocated bytes
(TotalAlloc), the second the allocation count (Mallocs). -/
def scanCounters (data : Str) : Int × Int :=
  (splitNL data).foldl scanLine (0, 0)

/-- The value a line contributes to the counter of the given name: some v
when the line has at least four fields, marker first, the given name second,
the equality sign third, and a fourth field parsing as a base-0 signed
64-bit integer v; none otherwise. -/
def recognizedValue (cname : Str) (line : Str) : Option Int :=
  match fieldsOf line with
  | f0 :: f1 :: f2 :: f3 :: _ =>
    if f0 = ['#'] ∧ f1 = cname ∧ f2 = ['='] then goParseInt64 f3 else none
  | _ => none

/-- The last element of a list of integers, or the default when empty. -/
def lastD : List Int → Int → Int
  | [], d => d
  | x :: xs, _ => lastD xs x

/-- The record line of runBuild with allocation reporting on:
%s 1 %d ns/op %d user-ns/op %d B/op %d allocs/op and a newline. -/
def allocLine (name : Str) (wallns userns bytes allocs : Int) : Str :=
  name ++ " 1 ".data ++ intToDec wallns ++ " ns/op ".data ++
    intToDec userns ++ " user-ns/op ".data ++ intToDec bytes ++
    " B/op ".data ++ intToDec allocs ++ " allocs/op".data ++ ['\n']

/-- The record line of runBuild without allocation reporting:
%s 1 %d ns/op %d user-ns/op and a newline. -/
def plainLine (name : Str) (wallns userns : Int) : Str :=
  name ++ " 1 ".data ++ intToDec wallns ++ " ns/op ".data ++
    intToDec userns ++ " user-ns/op".data ++ ['\n']

/-- The record line of runCmd: %s 1 %d ns/op and a newline. -/
def cmdLine (name : Str) (ns : Int) : Str :=
  name ++ " 1 ".data ++ intToDec ns ++ " ns/op".data ++ ['\n']

/-- The record line of runSize in the two-field segment layout:
%s 1 %s text-bytes %s data-bytes %v exe-bytes and a newline. -/
def sizeLineA (name t d : Str) (exeSize : Int) : Str :=
  name ++ " 1 ".data ++ t ++ " text-bytes ".data ++ d ++
    " data-bytes ".data ++ intToDec exeSize ++ " exe-bytes".data ++ ['\n']

/-- The record line of runSize in the three-field section layout:
%s 1 %s text-bytes %s data-bytes %s bss-bytes %v exe-bytes and a newline. -/
def sizeLineB (name t d b : Str) (exeSize : Int) : Str :=
  name ++ " 1 ".data ++ t ++ " text-bytes ".data ++ d ++
    " data-bytes ".data ++ b ++ " bss-bytes ".data ++
    intToDec exeSize ++ " exe-bytes".data ++ ['\n']

/-- Spec-side definition of the RecordEmitter, written from the words of the
specification alone: the name, the fixed iteration marker 1, then each
(value, unit) pair separated by single spaces. It is to be compared with
the record lines the code builds. -/
def emitRecordSpec (name : Str) (pairs : List (Str × Str)) : Str :=
  name ++ " 1".data ++
    (pairs.map (fun p => " ".data ++ p.1 ++ " ".data ++ p.2)).flatten

/-- The outcome of the size-output parsing step of runSize: an emitted
record line, a logged warning with no record, or silence with no record. -/
inductive SizeOutcome where
  | record (line : Str)
  | warn (msg : Str)
  | silent
deriving DecidableEq

/-- The parsing step of runSize: split the size-tool output on newlines;
with fewer than two lines, log a warning; otherwise tokenize the second
line and emit the segment-layout record when the first line starts with
__TEXT and at least two fields are present, else the section-layout record
when the first line contains bss and at least three fields are present,
else nothing at all. -/
def runSizeParse (name out : Str) (exeSize : Int) : SizeOutcome :=
  match splitNL out with
  | l0 :: l1 :: _ =>
    let f := fieldsOf l1
    if startsWithL "__TEXT".data l0 = true ∧ 2 ≤ f.length then
      SizeOutcome.record (sizeLineA name (f.getD 0 []) (f.getD 1 []) exeSize)
    else if containsSub l0 "bss".data = true ∧ 3 ≤ f.length then
      SizeOutcome.record
        (sizeLineB name (f.getD 0 []) (f.getD 1 []) (f.getD 2 []) exeSize)
    else SizeOutcome.silent
  | _ => SizeOutcome.warn ("not enough output from size: ".data ++ out)

/-- The side-artifact filename of the compiled object. -/
def objName : Str := "_compilebench_.o".data

/-- The side-artifact filename of the memory-profile dump. -/
def memprofName : Str := "_compilebench_.memprof".data

/-- The side-artifact filename of the CPU-profile dump. -/
def cpuprofName : Str := "_compilebench_.cpuprof".data

/-- The side-artifact filename of the built executable in runSize. -/
def outBinName : Str := "_compilebenchout_".data

/-- The diagnostic events the modelled paths can log. -/
inductive LogEvent where
  | buildFailed
  | memprofMissing
  | memprofileWriteFailed
  | cpuprofReadFailed
  | cpuprofWriteFailed
  | statFailed
  | sizeCmdFailed
  | sizeOutputShort
deriving DecidableEq

/-- The flag configuration relevant to one runBuild invocation: the alloc
flag and the memprofile and cpuprofile destination paths (empty when the
flag is unset). -/
structure Config where
  alloc : Bool
  memprofile : Str
  cpuprofile : Str

/-- The external world one compile-path runBuild invocation observes: did
the compiler process succeed, the contents of the profile dumps (none when
the read fails), whether the optional profile copies can be written, and
the measured wall and user times. -/
structure BuildEnv where
  buildOk : Bool
  memprof : Option Str
  cpuprof : Option Str
  memWriteOk : Bool
  cpuWriteOk : Bool
  wallns : Int
  userns : Int

/-- What one benchmark invocation produced: the emitted record lines, the
logged diagnostics, and the side-artifact filenames passed to removal,
in order. -/
structure BuildResult where
  records : List Str
  logs : List LogEvent
  removed : List Str
deriving DecidableEq

/-- The compile path of runBuild after the compiler invocation: on failure,
log and return with no record; on success, when the alloc flag is set or a
memprofile destination is given, read the dump (logging when it is
missing and scanning the empty text then), scan the counters, attempt the
optional copy (logging a failed write), and remove the dump; then handle
the CPU profile likewise when requested; emit exactly one record, with
allocation fields exactly when the alloc flag is set; finally remove the
object file. -/
def runBuildModel (name : Str) (cfg : Config) (env : BuildEnv) : BuildResult :=
  if env.buildOk = false then
    { records := [], logs := [LogEvent.buildFailed], removed := [] }
  else
    let memActive : Bool := cfg.alloc || decide (cfg.memprofile ≠ [])
    let memData := env.memprof.getD []
    let memLogs : List LogEvent :=
      (if env.memprof = none then [LogEvent.memprofMissing] else []) ++
        (if cfg.memprofile ≠ [] ∧ env.memWriteOk = false then
          [LogEvent.memprofileWriteFailed] else [])
    let counters := if memActive = true then scanCounters memData else (0, 0)
    let logs1 := if memActive = true then memLogs else []
    let rem1 := if memActive = true then [memprofName] else []
    let cpuLogs : List LogEvent :=
      (if env.cpuprof = none then [LogEvent.cpuprofReadFailed] else []) ++
        (if env.cpuWriteOk = false then [LogEvent.cpuprofWriteFailed] else [])
    let logs2 := if cfg.cpuprofile ≠ [] then cpuLogs else []
    let rem2 := if cfg.cpuprofile ≠ [] then [cpuprofName] else []
    let line :=
      if cfg.alloc = true then
        allocLine name env.wallns env.userns counters.1 counters.2
      else plainLine name env.wallns env.userns
    { records := [line], logs := logs1 ++ logs2,
      removed := rem1 ++ rem2 ++ [objName] }

/-- The external world one runSize invocation observes: did the go build
succeed, the stat result of the built executable (none when stat fails),
and the output of the size utility (none when it fails). -/
structure SizeEnv where
  buildOk : Bool
  exeSize : Option Int
  sizeOut : Option Str

/-- The runSize path: on build failure, log and return before the removal
is scoped; afterwards the built executable is removed on every exit, the
stat and size-tool failures are logged without a record, and the parsing
step decides between a record, a warning, or silence. -/
def runSizeModel (name : Str) (env : SizeEnv) : BuildResult :=
  if env.buildOk = false then
    { records := [], logs := [LogEvent.buildFailed], removed := [] }
  else
    match env.exeSize with
    | none => { records := [], logs := [LogEvent.statFailed],
                removed := [outBinName] }
    | some sz =>
      match env.sizeOut with
      | none => { records := [], logs := [LogEvent.sizeCmdFailed],
                  removed := [outBinName] }
      | some out =>
        match runSizeParse name out sz with
        | SizeOutcome.record r =>
          { records := [r], logs := [], removed := [outBinName] }
        | SizeOutcome.warn _ =>
          { records := [], logs := [LogEvent.sizeOutputShort],
            removed := [outBinName] }
        | SizeOutcome.silent =>
          { records := [], logs := [], removed := [outBinName] }

/-- A benchmark definition of the fixed table: a name and the long flag. -/
structure Test where
  name : Str
  long : Bool

/-- Whether the optional name filter accepts a name: with no filter
configured every name is accepted. -/
def reMatch (re : Option (Str → Bool)) (n : Str) : Bool :=
  match re with
  | none => true
  | some p => p n

/-- One pass of the benchmark loop of main: a long benchmark is skipped in
short mode; otherwise a benchmark runs exactly when no filter is configured
or the filter matches its name; the runner abstracts what one invocation
emits. -/
def mainLoopPass (re : Option (Str → Bool)) (short : Bool)
    (runOne : Test → List Str) : List Test → List Str
  | [] => []
  | t :: ts =>
    if t.long = true ∧ short = true then mainLoopPass re short runOne ts
    else if reMatch re t.name = true then
      runOne t ++ mainLoopPass re short runOne ts
    else mainLoopPass re short runOne ts

/-- The whole benchmark loop of main: the count flag repeats the pass. -/
def mainLoopCount (re : Option (Str → Bool)) (short : Bool)
    (runOne : Test → List Str) (ts : List Test) : Nat → List Str
  | 0 => []
  | n + 1 => mainLoopPass re short runOne ts ++
      mainLoopCount re short runOne ts n

/-- Spec-side skip condition, written from the words of the specification:
skipped exactly when a filter is configured and does not match, or the
definition is long-running and short mode is on. -/
def skippedSpec (re : Option (Str → Bool)) (short : Bool) (t : Test) : Bool :=
  (match re with
   | some p => !p t.name
   | none => false) || (t.long && short)

/-- The records the compile path contributes for one benchmark, given the
per-benchmark external world. -/
def buildRecordsOf (cfg : Config) (envf : Test → BuildEnv) (t : Test) :
    List Str :=
  (runBuildModel t.name cfg (envf t)).records

/-- A concrete profile dump exercising hex and decimal counter values,
unrelated lines, an unrecognized counter name and an unparseable value. -/
def demoProfile : Str :=
  "heap profile: 1: 2\n# TotalAlloc = 0x40\nother stuff here\n# Mallocs = 27\n# Frees = 3\n# bad = xyz".data

/-- A concrete size-tool output in the two-field segment layout. -/
def demoSizeA : Str := "__TEXT __DATA\n100 200 extra".data

/-- A concrete size-tool output in the three-field section layout. -/
def demoSizeB : Str := "text data bss dec hex\n300 400 500 1200 4b0".data

/-- A concrete size-tool output whose header matches neither layout. -/
def demoSizeBad : Str := "flounder\n1 2 3 4".data

/-- Another size-tool output whose header matches neither layout. -/
def demoSizeBad2 : Str := "nothing here\nx y z".data

/-- A concrete size-tool output with a single line. -/
def demoSizeShort : Str := "onlyoneline".data

/-- A segment-layout size output whose data fields are not numeric. -/
def demoSizeNonNumA : Str := "__TEXT segs\nfoo bar".data

/-- A section-layout size output whose data fields are not numeric. -/
def demoSizeNonNumB : Str := "sections bss etc\nfoo bar baz".data

/-- A configuration with only the alloc flag set. -/
def cfgAlloc : Config := { alloc := true, memprofile := [], cpuprofile := [] }

/-- A configuration with the alloc flag and both profile destinations set. -/
def cfgFull : Config :=
  { alloc := true, memprofile := "mem.out".data, cpuprofile := "cpu.out".data }

/-- An environment in which the compiler invocation fails. -/
def envFail : BuildEnv :=
  { buildOk := false, memprof := none, cpuprof := none,
    memWriteOk := true, cpuWriteOk := true, wallns := 5, userns := 3 }

/-- An environment in which the build succeeds but the memory-profile dump
cannot be read. -/
def envNoProf : BuildEnv :=
  { buildOk := true, memprof := none, cpuprof := some [],
    memWriteOk := true, cpuWriteOk := true, wallns := 11, userns := 7 }

/-- An environment in which the build succeeds, the dumps read fine, but
the requested copy of the memory profile cannot be written. -/
def envWriteFail : BuildEnv :=
  { buildOk := true, memprof := some demoProfile, cpuprof := some [],
    memWriteOk := false, cpuWriteOk := true, wallns := 11, userns := 7 }

/-- A size-path environment in which everything succeeds. -/
def sizeEnvOk : SizeEnv :=
  { buildOk := true, exeSize := some 900, sizeOut := some demoSizeA }

/-- A size-path environment in which the go build fails. -/
def sizeEnvFail : SizeEnv :=
  { buildOk := false, exeSize := none, sizeOut := none }

/-- A name filter that matches nothing. -/
def matchNone : Str → Bool := fun _ => false

/-- A runner that emits the benchmark name as its one record. -/
def runOneDemo : Test → List Str := fun t => [t.name]

/-- A long-running benchmark definition from the fixed table. -/
def demoLong : Test := { name := "BenchmarkStdCmd".data, long := true }

/-- Two benchmark definitions from the fixed table. -/
def demoTests : List Test :=
  [{ name := "BenchmarkTemplate".data, long := false }, demoLong]

/-- A per-benchmark environment assignment in which every build fails. -/
def demoEnvF : Test → BuildEnv := fun _ => envFail

/-- One scan step stores the value a line contributes to each counter,
overwriting the accumulator component exactly when the line is recognized
for that counter. -/
theorem scanLine_eq (acc : Int × Int) (line : Str) :
    scanLine acc line =
      ((recognizedValue totalAllocName line).getD acc.1,
       (recognizedValue mallocsName line).getD acc.2) := by
  unfold scanLine recognizedValue
  rcases h : fieldsOf line with _ | ⟨f0, _ | ⟨f1, _ | ⟨f2, _ | ⟨f3, rest⟩⟩⟩⟩
  · simp
  · simp
  · simp
  · simp
  · by_cases h0 : f0 = ['#'] <;> by_cases h2 : f2 = ['=']
    · have hne : totalAllocName ≠ mallocsName := by decide
      have hne2 : mallocsName ≠ totalAllocName := by decide
      rcases hp : goParseInt64 f3 with _ | val
      · simp [h0, h2, hp]
      · by_cases hT : f1 = totalAllocName
        · have hM : f1 ≠ mallocsName := by
            rw [hT]; decide
          simp [h0, h2, hp, hT, hM, hne]
        · by_cases hM : f1 = mallocsName <;> simp [h0, h2, hp, hT, hM, hne2]
    · simp [h0, h2]
    · simp [h0, h2]
    · simp [h0, h2]

/-- The tail case of lastD. -/
theorem lastD_cons (x : Int) (xs : List Int) (d : Int) :
    lastD (x :: xs) d = lastD xs x := rfl

/-- Folding the scan over a list of lines yields, in each component, the
value of the last line recognized for that counter, or the accumulator
component when none is. -/
theorem scan_foldl (ls : List Str) (acc : Int × Int) :
    ls.foldl scanLine acc =
      (lastD (ls.filterMap (recognizedValue totalAllocName)) acc.1,
       lastD (ls.filterMap (recognizedValue mallocsName)) acc.2) := by
  induction ls generalizing acc with
  | nil => simp [lastD]
  | cons l ls ih =>
    rw [List.foldl_cons, ih, scanLine_eq]
    rcases hT : recognizedValue totalAllocName l with _ | v <;>
      rcases hM : recognizedValue mallocsName l with _ | w <;>
        simp [List.filterMap_cons, hT, hM, lastD_cons]

/-- C1: for every profile-dump text in which exactly one line is recognized
as a TotalAlloc counter line (at least four whitespace-separated fields,
the comment marker first, the equality sign third, the fourth parsing as a
base-0 signed 64-bit integer n) and exactly one as a Mallocs counter line
with value m, the scan returns total-allocated-bytes n and
total-allocation-count m; every other line, whether failing the
marker/equality shape, failing integer parsing, or bearing an unrecognized
counter name, contributes nothing and raises no error. -/
theorem c1_profile_extraction (data : Str) (n m : Int)
    (hT : (splitNL data).filterMap (recognizedValue totalAllocName) = [n])
    (hM : (splitNL data).filterMap (recognizedValue mallocsName) = [m]) :
    scanCounters data = (n, m) := by
  unfold scanCounters
  rw [scan_foldl, hT, hM]
  rfl

/-- Witness for C1 on a concrete dump with a hex TotalAlloc value, a
decimal Mallocs value, unrelated lines, an unrecognized counter name and
an unparseable value. -/
theorem c1_profile_extraction_witness : scanCounters demoProfile = (64, 27) :=
  c1_profile_extraction demoProfile 64 27 (by decide) (by decide)

/-- C9: the scan returns, for each recognized counter name, the value of
the last recognized line in file order (zero when there is none); each
recognized counter line overwrites the previously stored value, so with
several TotalAlloc or Mallocs lines the final one wins. -/
theorem c9_last_counter_wins (data : Str) :
    scanCounters data =
      (lastD ((splitNL data).filterMap (recognizedValue totalAllocName)) 0,
       lastD ((splitNL data).filterMap (recognizedValue mallocsName)) 0) ∧
    ∀ acc line, scanLine acc line =
      ((recognizedValue totalAllocName line).getD acc.1,
       (recognizedValue mallocsName line).getD acc.2) := by
  constructor
  · unfold scanCounters
    rw [scan_foldl]
  · exact scanLine_eq

/-- C2: every record line the code builds is exactly the line of the
spec-side RecordEmitter, name then the fixed iteration marker 1 then the
(value, unit) pairs separated by single spaces, for its own pair sequence;
on the specified instance the emitter produces exactly
BenchmarkX 1 1234 ns/op 56 B/op; and every record, spec-side or code-side,
carries the marker 1 directly after the name. -/
theorem c2_record_schema (name t d b : Str) (w u bs al sz : Int) :
    (allocLine name w u bs al =
      emitRecordSpec name [(intToDec w, "ns/op".data),
        (intToDec u, "user-ns/op".data), (intToDec bs, "B/op".data),
        (intToDec al, "allocs/op".data)] ++ ['\n']) ∧
    (plainLine name w u =
      emitRecordSpec name [(intToDec w, "ns/op".data),
        (intToDec u, "user-ns/op".data)] ++ ['\n']) ∧
    (cmdLine name w =
      emitRecordSpec name [(intToDec w, "ns/op".data)] ++ ['\n']) ∧
    (sizeLineA name t d sz =
      emitRecordSpec name [(t, "text-bytes".data), (d, "data-bytes".data),
        (intToDec sz, "exe-bytes".data)] ++ ['\n']) ∧
    (sizeLineB name t d b sz =
      emitRecordSpec name [(t, "text-bytes".data), (d, "data-bytes".data),
        (b, "bss-bytes".data), (intToDec sz, "exe-bytes".data)] ++ ['\n']) ∧
    (emitRecordSpec "BenchmarkX".data
        [(intToDec 1234, "ns/op".data), (intToDec 56, "B/op".data)] =
      "BenchmarkX 1 1234 ns/op 56 B/op".data) ∧
    (∀ ps : List (Str × Str),
      ∃ rest, emitRecordSpec name ps = name ++ " 1".data ++ rest) ∧
    (∃ rest, allocLine name w u bs al = name ++ " 1 ".data ++ rest) ∧
    (∃ rest, plainLine name w u = name ++ " 1 ".data ++ rest) ∧
    (∃ rest, cmdLine name w = name ++ " 1 ".data ++ rest) ∧
    (∃ rest, sizeLineA name t d sz = name ++ " 1 ".data ++ rest) ∧
    (∃ rest, sizeLineB name t d b sz = name ++ " 1 ".data ++ rest) := by
  refine ⟨?_, ?_, ?_, ?_, ?_, by decide, fun ps => ⟨_, rfl⟩,
    ⟨intToDec w ++ " ns/op ".data ++ intToDec u ++ " user-ns/op ".data ++
      intToDec bs ++ " B/op ".data ++ intToDec al ++ " allocs/op".data ++
      ['\n'], ?_⟩,
    ⟨intToDec w ++ " ns/op ".data ++ intToDec u ++ " user-ns/op".data ++
      ['\n'], ?_⟩,
    ⟨intToDec w ++ " ns/op".data ++ ['\n'], ?_⟩,
    ⟨t ++ " text-bytes ".data ++ d ++ " data-bytes ".data ++ intToDec sz ++
      " exe-bytes".data ++ ['\n'], ?_⟩,
    ⟨t ++ " text-bytes ".data ++ d ++ " data-bytes ".data ++ b ++
      " bss-bytes ".data ++ intToDec sz ++ " exe-bytes".data ++ ['\n'], ?_⟩⟩ <;>
    simp [allocLine, plainLine, cmdLine, sizeLineA, sizeLineB,
      emitRecordSpec, List.append_assoc]

/-- In the segment layout, with the output split into a first line starting
with __TEXT and a second line of at least two fields, the parse emits the
two-field record. -/
theorem runSizeParse_A (name out : Str) (sz : Int) {l0 l1 : Str}
    {rest : List Str} (h : splitNL out = l0 :: l1 :: rest)
    (h1 : startsWithL "__TEXT".data l0 = true)
    (h2 : 2 ≤ (fieldsOf l1).length) :
    runSizeParse name out sz = SizeOutcome.record
      (sizeLineA name ((fieldsOf l1).getD 0 []) ((fieldsOf l1).getD 1 []) sz) := by
  unfold runSizeParse
  rw [h]
  simp [h1, h2]

/-- In the section layout, when the segment layout does not apply and the
first line contains bss with at least three fields on the second line, the
parse emits the three-field record. -/
theorem runSizeParse_B (name out : Str) (sz : Int) {l0 l1 : Str}
    {rest : List Str} (h : splitNL out = l0 :: l1 :: rest)
    (hn : ¬(startsWithL "__TEXT".data l0 = true ∧ 2 ≤ (fieldsOf l1).length))
    (h1 : containsSub l0 "bss".data = true)
    (h2 : 3 ≤ (fieldsOf l1).length) :
    runSizeParse name out sz = SizeOutcome.record
      (sizeLineB name ((fieldsOf l1).getD 0 []) ((fieldsOf l1).getD 1 [])
        ((fieldsOf l1).getD 2 []) sz) := by
  unfold runSizeParse
  rw [h]
  simp only [if_neg hn, if_pos (And.intro h1 h2)]

/-- C3: with at least two output lines, a first line starting with __TEXT
and a second line of at least two fields yield the record with text-bytes
from field one, data-bytes from field two and the externally supplied
executable size; otherwise a first line containing bss with at least three
fields yields the record with text-, data- and bss-bytes from fields one to
three plus the executable size; the two-field record carries, as its exact
content shows, no bss field. -/
theorem c3_size_layouts (name out : Str) (sz : Int) (l0 l1 : Str)
    (rest : List Str) (h : splitNL out = l0 :: l1 :: rest) :
    (startsWithL "__TEXT".data l0 = true → 2 ≤ (fieldsOf l1).length →
      runSizeParse name out sz = SizeOutcome.record
        (name ++ " 1 ".data ++ (fieldsOf l1).getD 0 [] ++
          " text-bytes ".data ++ (fieldsOf l1).getD 1 [] ++
          " data-bytes ".data ++ intToDec sz ++ " exe-bytes".data ++ ['\n'])) ∧
    (¬(startsWithL "__TEXT".data l0 = true ∧ 2 ≤ (fieldsOf l1).length) →
      containsSub l0 "bss".data = true → 3 ≤ (fieldsOf l1).length →
      runSizeParse name out sz = SizeOutcome.record
        (name ++ " 1 ".data ++ (fieldsOf l1).getD 0 [] ++
          " text-bytes ".data ++ (fieldsOf l1).getD 1 [] ++
          " data-bytes ".data ++ (fieldsOf l1).getD 2 [] ++
          " bss-bytes ".data ++ intToDec sz ++ " exe-bytes".data ++ ['\n'])) := by
  constructor
  · intro h1 h2
    rw [runSizeParse_A name out sz h h1 h2]
    rfl
  · intro hn h1 h2
    rw [runSizeParse_B name out sz h hn h1 h2]
    rfl

/-- Witness for C3: both layouts on concrete size-tool outputs. -/
theorem c3_size_layouts_witness :
    runSizeParse "BenchmarkHelloSize".data demoSizeA 900 =
      SizeOutcome.record
        (sizeLineA "BenchmarkHelloSize".data "100".data "200".data 900) ∧
    runSizeParse "BenchmarkCmdGoSize".data demoSizeB 901 =
      SizeOutcome.record
        (sizeLineB "BenchmarkCmdGoSize".data "300".data "400".data
          "500".data 901) := by
  constructor
  · exact ((c3_size_layouts "BenchmarkHelloSize".data demoSizeA 900
      "__TEXT __DATA".data "100 200 extra".data [] (by decide)).1
      (by decide) (by decide)).trans (by decide)
  · exact ((c3_size_layouts "BenchmarkCmdGoSize".data demoSizeB 901
      "text data bss dec hex".data "300 400 500 1200 4b0".data []
      (by decide)).2 (by decide) (by decide) (by decide)).trans (by decide)

/-- C4 counterexample: on a two-line output whose header matches neither
layout the parse is silent, emitting no record but also logging no warning,
against the claim that a parse failure is always signaled as a logged
warning. -/
theorem c4_counterexample :
    runSizeParse "BenchmarkCmdGoSize".data demoSizeBad 7 =
      SizeOutcome.silent := by decide

/-- C4 amended: with fewer than two output lines, no record is emitted and
a warning is logged, and the run continues; with at least two lines and a
header matching neither layout, no record is emitted and nothing is
logged, and the run continues. -/
theorem c4_size_failure_modes (name out : Str) (sz : Int) :
    ((splitNL out).length < 2 →
      runSizeParse name out sz =
        SizeOutcome.warn ("not enough output from size: ".data ++ out)) ∧
    (∀ l0 l1 rest, splitNL out = l0 :: l1 :: rest →
      ¬(startsWithL "__TEXT".data l0 = true ∧ 2 ≤ (fieldsOf l1).length) →
      ¬(containsSub l0 "bss".data = true ∧ 3 ≤ (fieldsOf l1).length) →
      runSizeParse name out sz = SizeOutcome.silent) := by
  constructor
  · intro hlen
    unfold runSizeParse
    rcases h : splitNL out with _ | ⟨x, _ | ⟨y, r⟩⟩
    · rfl
    · rfl
    · rw [h] at hlen
      simp only [List.length_cons] at hlen
      omega
  · intro l0 l1 rest h hn1 hn2
    unfold runSizeParse
    rw [h]
    simp only [if_neg hn1, if_neg hn2]

/-- Witness for C4 amended: a one-line output warns; a two-line output with
an unrecognized header is silent. -/
theorem c4_size_failure_modes_witness :
    runSizeParse "BenchmarkCmdGoSize".data demoSizeShort 7 =
      SizeOutcome.warn ("not enough output from size: ".data ++ demoSizeShort) ∧
    runSizeParse "BenchmarkCmdGoSize".data demoSizeBad2 7 =
      SizeOutcome.silent := by
  constructor
  · exact (c4_size_failure_modes "BenchmarkCmdGoSize".data demoSizeShort 7).1
      (by decide)
  · exact (c4_size_failure_modes "BenchmarkCmdGoSize".data demoSizeBad2 7).2
      "nothing here".data "x y z".data [] (by decide) (by decide) (by decide)

/-- C10: the parse never validates the data-line fields numerically: when
the header shape matches and the field count suffices, the tokens of the
second line — here hypothesized to contain no digit at all — are copied
verbatim into the emitted record. -/
theorem c10_fields_verbatim (name out : Str) (sz : Int) (l0 l1 : Str)
    (rest : List Str) (a b c : Str) (restf : List Str)
    (h : splitNL out = l0 :: l1 :: rest) :
    ((∀ ch ∈ a, ch.isDigit = false) → (∀ ch ∈ b, ch.isDigit = false) →
      fieldsOf l1 = a :: b :: restf →
      startsWithL "__TEXT".data l0 = true →
      runSizeParse name out sz = SizeOutcome.record (sizeLineA name a b sz)) ∧
    ((∀ ch ∈ a, ch.isDigit = false) → (∀ ch ∈ b, ch.isDigit = false) →
      (∀ ch ∈ c, ch.isDigit = false) →
      fieldsOf l1 = a :: b :: c :: restf →
      startsWithL "__TEXT".data l0 = false →
      containsSub l0 "bss".data = true →
      runSizeParse name out sz = SizeOutcome.record
        (sizeLineB name a b c sz)) := by
  constructor
  · intro _ _ hf h1
    have h2 : 2 ≤ (fieldsOf l1).length := by
      rw [hf]; simp
    rw [runSizeParse_A name out sz h h1 h2, hf]
    rfl
  · intro _ _ _ hf h1 hb
    have h3 : 3 ≤ (fieldsOf l1).length := by
      rw [hf]; simp
    have hn : ¬(startsWithL "__TEXT".data l0 = true ∧
        2 ≤ (fieldsOf l1).length) := by
      rw [h1]; simp
    rw [runSizeParse_B name out sz h hn hb h3, hf]
    rfl

/-- Witness for C10: layouts with entirely non-numeric data fields still
produce records carrying those tokens unchanged. -/
theorem c10_fields_verbatim_witness :
    runSizeParse "BenchmarkHelloSize".data demoSizeNonNumA 5 =
      SizeOutcome.record
        (sizeLineA "BenchmarkHelloSize".data "foo".data "bar".data 5) ∧
    runSizeParse "BenchmarkCmdGoSize".data demoSizeNonNumB 6 =
      SizeOutcome.record
        (sizeLineB "BenchmarkCmdGoSize".data "foo".data "bar".data
          "baz".data 6) := by
  constructor
  · exact (c10_fields_verbatim "BenchmarkHelloSize".data demoSizeNonNumA 5
      "__TEXT segs".data "foo bar".data [] "foo".data "bar".data
      ([] : Str) [] (by decide)).1 (by decide) (by decide) (by decide)
      (by decide)
  · exact (c10_fields_verbatim "BenchmarkCmdGoSize".data demoSizeNonNumB 6
      "sections bss etc".data "foo bar baz".data [] "foo".data "bar".data
      "baz".data [] (by decide)).2 (by decide) (by decide) (by decide)
      (by decide) (by decide) (by decide)

/-- The loop skip condition equals the spec-side one: no match from a
configured filter, or long-running in short mode. -/
theorem skippedSpec_eq (re : Option (Str → Bool)) (short : Bool) (t : Test) :
    skippedSpec re short t = (!reMatch re t.name || (t.long && short)) := by
  cases re <;> rfl

/-- One pass of the loop runs exactly the definitions the spec-side skip
condition keeps, in order, concatenating what each run emits. -/
theorem mainLoopPass_eq (re : Option (Str → Bool)) (short : Bool)
    (runOne : Test → List Str) (ts : List Test) :
    mainLoopPass re short runOne ts =
      ((ts.filter fun t => !skippedSpec re short t).map runOne).flatten := by
  induction ts with
  | nil => simp [mainLoopPass]
  | cons t ts ih =>
    cases hL : t.long <;> cases hS : short <;>
      cases hM : reMatch re t.name <;>
        simp_all [mainLoopPass, skippedSpec_eq, List.filter_cons]

/-- A pass over a concatenation is the concatenation of the passes. -/
theorem mainLoopPass_append (re : Option (Str → Bool)) (short : Bool)
    (runOne : Test → List Str) (a c : List Test) :
    mainLoopPass re short runOne (a ++ c) =
      mainLoopPass re short runOne a ++ mainLoopPass re short runOne c := by
  simp [mainLoopPass_eq, List.filter_append]

/-- C7: a pass emits exactly the output of the runs of the benchmarks the
skip condition keeps; the skip condition holds exactly when a configured
filter rejects the name or the definition is long-running in short mode; a
filter matching no benchmark yields zero records over any repeat count (and
the loop terminates normally); and a long-running benchmark whose name
passes the filter runs whenever short mode is off. -/
theorem c7_orchestrator_skip (re : Option (Str → Bool)) (short : Bool)
    (runOne : Test → List Str) (ts : List Test) :
    (mainLoopPass re short runOne ts =
      ((ts.filter fun t => !skippedSpec re short t).map runOne).flatten) ∧
    (∀ t : Test, skippedSpec re short t = true ↔
      ((∃ p, re = some p ∧ p t.name = false) ∨
        (t.long = true ∧ short = true))) ∧
    (∀ p, re = some p → (∀ t ∈ ts, p t.name = false) →
      ∀ count, mainLoopCount re short runOne ts count = []) ∧
    (∀ t : Test, short = false → reMatch re t.name = true →
      mainLoopPass re short runOne [t] = runOne t) := by
  refine ⟨mainLoopPass_eq re short runOne ts, ?_, ?_, ?_⟩
  · intro t
    cases re with
    | none => simp [skippedSpec]
    | some p =>
      constructor
      · intro hs
        rw [skippedSpec_eq] at hs
        cases hM : p t.name with
        | false => exact Or.inl ⟨p, rfl, hM⟩
        | true =>
          rw [show reMatch (some p) t.name = p t.name from rfl, hM] at hs
          simp only [Bool.not_true, Bool.false_or, Bool.and_eq_true] at hs
          exact Or.inr hs
      · intro hs
        rw [skippedSpec_eq]
        rcases hs with ⟨q, hq, hqf⟩ | ⟨hl, hsrt⟩
        · cases hq
          simp [reMatch, hqf]
        · simp [hl, hsrt]
  · intro p hre hall count
    induction count with
    | zero => rfl
    | succ k ih =>
      have hpass : mainLoopPass re short runOne ts = [] := by
        rw [mainLoopPass_eq]
        have : (ts.filter fun t => !skippedSpec re short t) = [] := by
          rw [List.filter_eq_nil_iff]
          intro t ht
          rw [skippedSpec_eq, hre]
          simp [reMatch, hall t ht]
        rw [this]
        rfl
      simp [mainLoopCount, hpass, ih]
  · intro t hshort hm
    simp [mainLoopPass, hshort, hm]

/-- Witness for C7: with a filter matching nothing two passes emit no
record, and a long benchmark runs with no filter and short mode off. -/
theorem c7_orchestrator_skip_witness :
    mainLoopCount (some matchNone) false runOneDemo demoTests 2 = [] ∧
    mainLoopPass none false runOneDemo [demoLong] = runOneDemo demoLong := by
  constructor
  · exact (c7_orchestrator_skip (some matchNone) false runOneDemo
      demoTests).2.2.1 matchNone rfl (fun t _ => rfl) 2
  · exact (c7_orchestrator_skip none false runOneDemo [demoLong]).2.2.2
      demoLong rfl rfl

/-- C5: a failed build invocation emits no record (on both the compile and
the size paths) and logs the failure with its output; and in the batch
loop a benchmark whose build fails contributes nothing, the records of the
batch being exactly those of the surrounding benchmarks — a single failure
never aborts the batch. -/
theorem c5_build_failure_continues (name : Str) (cfg : Config)
    (env : BuildEnv) (env2 : SizeEnv)
    (hb : env.buildOk = false) (hb2 : env2.buildOk = false) :
    (runBuildModel name cfg env).records = [] ∧
    (runBuildModel name cfg env).logs = [LogEvent.buildFailed] ∧
    (runSizeModel name env2).records = [] ∧
    (runSizeModel name env2).logs = [LogEvent.buildFailed] ∧
    (∀ re short (envf : Test → BuildEnv) (ts1 ts2 : List Test) (t : Test),
      (envf t).buildOk = false →
      mainLoopPass re short (buildRecordsOf cfg envf) (ts1 ++ t :: ts2) =
        mainLoopPass re short (buildRecordsOf cfg envf) ts1 ++
          mainLoopPass re short (buildRecordsOf cfg envf) ts2) := by
  refine ⟨?_, ?_, ?_, ?_, ?_⟩
  · simp [runBuildModel, hb]
  · simp [runBuildModel, hb]
  · simp [runSizeModel, hb2]
  · simp [runSizeModel, hb2]
  · intro re short envf ts1 ts2 t ht
    rw [show ts1 ++ t :: ts2 = ts1 ++ [t] ++ ts2 by simp,
      mainLoopPass_append, mainLoopPass_append]
    have hone : mainLoopPass re short (buildRecordsOf cfg envf) [t] = [] := by
      by_cases h1 : t.long = true ∧ short = true
      · simp [mainLoopPass, h1]
      · by_cases h2 : reMatch re t.name = true
        · simp [mainLoopPass, h1, h2, buildRecordsOf, runBuildModel, ht]
        · simp [mainLoopPass, h1, h2]
    rw [hone]
    simp

/-- Witness for C5: with a failing build in a concrete configuration, no
record and one failure log on both paths, and a batch of one failing
benchmark emits nothing. -/
theorem c5_build_failure_continues_witness :
    (runBuildModel "BenchmarkTemplate".data cfgAlloc envFail).records = [] ∧
    (runSizeModel "BenchmarkCmdGoSize".data sizeEnvFail).logs =
      [LogEvent.buildFailed] ∧
    mainLoopPass none false (buildRecordsOf cfgAlloc demoEnvF)
        ([] ++ demoLong :: []) =
      mainLoopPass none false (buildRecordsOf cfgAlloc demoEnvF) [] ++
        mainLoopPass none false (buildRecordsOf cfgAlloc demoEnvF) [] := by
  refine ⟨?_, ?_, ?_⟩
  · exact (c5_build_failure_continues "BenchmarkTemplate".data cfgAlloc
      envFail sizeEnvFail rfl rfl).1
  · exact (c5_build_failure_continues "BenchmarkCmdGoSize".data cfgAlloc
      envFail sizeEnvFail rfl rfl).2.2.2.1
  · exact (c5_build_failure_continues "BenchmarkTemplate".data cfgAlloc
      envFail sizeEnvFail rfl rfl).2.2.2.2 none false demoEnvF [] []
      demoLong rfl

/-- C6: after a successful build with allocation counters requested, an
unreadable memory-profile dump is a logged warning, not a fatal error: the
record is still emitted, its allocation counters defaulting to zero, and
the anomaly appears in the log. -/
theorem c6_missing_profile_nonfatal (name : Str) (cfg : Config)
    (env : BuildEnv) (ha : cfg.alloc = true) (hb : env.buildOk = true)
    (hm : env.memprof = none) :
    LogEvent.memprofMissing ∈ (runBuildModel name cfg env).logs ∧
    (runBuildModel name cfg env).records =
      [allocLine name env.wallns env.userns 0 0] := by
  have h0 : scanCounters [] = (0, 0) := rfl
  unfold runBuildModel
  rw [hb]
  simp [ha, hm, h0]

/-- Witness for C6: a concrete successful build with the alloc flag on and
no readable dump still emits the record with zero counters. -/
theorem c6_missing_profile_nonfatal_witness :
    LogEvent.memprofMissing ∈
      (runBuildModel "BenchmarkUnicode".data cfgAlloc envNoProf).logs ∧
    (runBuildModel "BenchmarkUnicode".data cfgAlloc envNoProf).records =
      [allocLine "BenchmarkUnicode".data 11 7 0 0] :=
  c6_missing_profile_nonfatal "BenchmarkUnicode".data cfgAlloc envNoProf
    rfl rfl rfl

/-- C8: after a successful build the object file is removed, the memory
profile dump is removed whenever the profiling section ran — including
when the requested copy of the profile could not be written — the CPU
profile dump is removed whenever requested, and the size path removes the
built executable; so no later benchmark can observe a stale artifact of an
earlier one. -/
theorem c8_artifact_cleanup (name : Str) (cfg : Config) (env : BuildEnv)
    (env2 : SizeEnv) (hb : env.buildOk = true) (hb2 : env2.buildOk = true) :
    objName ∈ (runBuildModel name cfg env).removed ∧
    ((cfg.alloc = true ∨ cfg.memprofile ≠ []) →
      memprofName ∈ (runBuildModel name cfg env).removed) ∧
    (cfg.cpuprofile ≠ [] →
      cpuprofName ∈ (runBuildModel name cfg env).removed) ∧
    (cfg.memprofile ≠ [] → env.memWriteOk = false →
      memprofName ∈ (runBuildModel name cfg env).removed) ∧
    outBinName ∈ (runSizeModel name env2).removed := by
  refine ⟨?_, ?_, ?_, ?_, ?_⟩
  · unfold runBuildModel
    rw [hb]
    simp
  · intro hmem
    unfold runBuildModel
    rw [hb]
    rcases hmem with hmem | hmem <;> simp [hmem]
  · intro hcpu
    unfold runBuildModel
    rw [hb]
    simp [hcpu]
  · intro hmem _
    unfold runBuildModel
    rw [hb]
    simp [hmem]
  · unfold runSizeModel
    rw [hb2]
    rcases env2.exeSize with _ | sz
    · simp
    · rcases env2.sizeOut with _ | out
      · simp
      · rcases hrp : runSizeParse name out sz with r | m
        · simp [hrp]
        · simp [hrp]
        · simp [hrp]

/-- Witness for C8: with every flag set and the profile-copy write
failing, all three compile-path artifacts are removed, and the size path
removes the built executable. -/
theorem c8_artifact_cleanup_witness :
    objName ∈
      (runBuildModel "BenchmarkGoTypes".data cfgFull envWriteFail).removed ∧
    memprofName ∈
      (runBuildModel "BenchmarkGoTypes".data cfgFull envWriteFail).removed ∧
    cpuprofName ∈
      (runBuildModel "BenchmarkGoTypes".data cfgFull envWriteFail).removed ∧
    outBinName ∈ (runSizeModel "BenchmarkHelloSize".data sizeEnvOk).removed := by
  refine ⟨?_, ?_, ?_, ?_⟩
  · exact (c8_artifact_cleanup "BenchmarkGoTypes".data cfgFull envWriteFail
      sizeEnvOk rfl rfl).1
  · exact (c8_artifact_cleanup "BenchmarkGoTypes".data cfgFull envWriteFail
      sizeEnvOk rfl rfl).2.2.2.1 (by decide) rfl
  · exact (c8_artifact_cleanup "BenchmarkGoTypes".data cfgFull envWriteFail
      sizeEnvOk rfl rfl).2.2.1 (by decide)
  · exact (c8_artifact_cleanup "BenchmarkHelloSize".data cfgFull envWriteFail
      sizeEnvOk rfl rfl).2.2.2.2

end Compilebench
